import Mathlib

/-!
Verification development for the real-time room / moderation / analytics core
of the `agent_english_teacher` backend.

The TypeScript sources are shallowly embedded:

* `Map<string, V>` objects become association lists `List (String × V)` with
  `mGet` / `mSet` / `mDel` mirroring `get` / `set` / `delete`;
* `Set<string>` objects become duplicate-free insertion-ordered lists with
  `setHas` / `setAdd` / `setDel` mirroring `has` / `add` / `delete`;
* `Date` values become `Nat` millisecond timestamps (the current time is an
  explicit `now : Nat` argument wherever the source calls `new Date()` or
  `Date.now()`); locale-formatted date strings inside outcome messages are
  abstracted to the decimal rendering of the timestamp;
* methods that mutate `this` become functions from state to state; the
  socket.io broadcasts become an explicit `eventLog` trace (payloads, which
  are untyped `any` in the source, are reduced to the event name, room id and
  exclusion socket — the only parts the claims mention);
* `Math.random()` in id generation becomes an explicit `randSuffix` argument.
-/

/-- `Map.get`: first binding of the key, if any. -/
def mGet {β : Type} (m : List (String × β)) (k : String) : Option β :=
  match m with
  | [] => none
  | (k₁, v) :: rest => if k₁ = k then some v else mGet rest k

/-- `Map.set`: replace the first binding of the key, or append a new one. -/
def mSet {β : Type} (m : List (String × β)) (k : String) (v : β) : List (String × β) :=
  match m with
  | [] => [(k, v)]
  | (k₁, v₁) :: rest => if k₁ = k then (k, v) :: rest else (k₁, v₁) :: mSet rest k v

/-- `Map.delete`: remove every binding of the key. -/
def mDel {β : Type} (m : List (String × β)) (k : String) : List (String × β) :=
  m.filter (fun p => p.1 != k)

/-- `Set.has`. -/
def setHas (s : List String) (x : String) : Bool :=
  s.contains x

/-- `Set.add`: append if absent (JS sets keep insertion order). -/
def setAdd (s : List String) (x : String) : List String :=
  if s.contains x then s else s ++ [x]

/-- `Set.delete`. -/
def setDel (s : List String) (x : String) : List String :=
  s.filter (fun y => y != x)

/-- `RoomSettings.notifications` (roomManager source). -/
structure RoomNotificationSettings where
  memberJoin : Bool
  memberLeave : Bool
  newMessage : Bool
deriving DecidableEq

/-- `RoomSettings` (roomManager source). `moderationLevel` is one of
`"none" | "basic" | "strict"`, kept as a string. -/
structure RoomSettings where
  allowMessaging : Bool
  allowFileSharing : Bool
  allowVoiceChat : Bool
  allowVideoChat : Bool
  moderationLevel : String
  messageRetention : Nat
  autoCleanup : Bool
  notifications : RoomNotificationSettings
deriving DecidableEq

/-- `RoomMetadata` (roomManager source). -/
structure RoomMetadata where
  totalMessages : Nat
  totalMembers : Nat
  activeMembers : Nat
  lastMessageAt : Option Nat
  peakConcurrentUsers : Nat
  tags : List String
  isArchived : Bool
  archiveReason : Option String
deriving DecidableEq

/-- `RoomInfo` (roomManager source). `roomType` is one of
`"class" | "direct" | "group" | "system"`, kept as a string. -/
structure RoomInfo where
  roomId : String
  roomType : String
  name : String
  description : Option String
  classId : Option String
  ownerId : String
  moderatorIds : List String
  memberIds : List String
  isPublic : Bool
  maxMembers : Nat
  settings : RoomSettings
  metadata : RoomMetadata
  createdAt : Nat
  lastActivity : Nat
deriving DecidableEq

/-- The `socket.data` payload (`SocketData`): the authenticated user id and
global role (`"STUDENT" | "TEACHER" | "ADMIN"`). -/
structure SocketData where
  userId : String
  userRole : String
deriving DecidableEq

/-- A connected socket: its socket id and its `data`. -/
structure Socket where
  id : String
  data : SocketData
deriving DecidableEq

/-- `RoomMember` (roomManager source). `permissions` is a string set. -/
structure RoomMember where
  userId : String
  socketId : String
  role : String
  joinedAt : Nat
  lastActivity : Nat
  permissions : List String
  isMuted : Bool
  isBanned : Bool
deriving DecidableEq

/-- Result shape of `hasRoomPermission` / `checkActionPermission`:
`{ allowed: boolean; reason?: string }`. -/
structure PermResult where
  allowed : Bool
  reason : Option String
deriving DecidableEq

/-- `RoomPermissionContext` (roomPermissions source). -/
structure RoomPermissionContext where
  roomId : String
  action : String
  targetUserId : Option String
  resourceId : Option String
deriving DecidableEq

/-- `isTargetHigherRank` (roomPermissions source, lines 194–207). -/
def isTargetHigherRank (actorId targetId : String) (room : RoomInfo) : Bool :=
  let isActorOwner := room.ownerId == actorId
  let isActorModerator := setHas room.moderatorIds actorId
  let isTargetOwner := room.ownerId == targetId
  let isTargetModerator := setHas room.moderatorIds targetId
  if isTargetOwner then !isActorOwner
  else if isTargetModerator then !isActorOwner && !isActorModerator
  else false

/-- `checkActionPermission` (roomPermissions source, lines 96–189). The
`userMember` argument is taken but, as in the source, never consulted. -/
def checkActionPermission (socketData : SocketData) (userMember : RoomMember)
    (room : RoomInfo) (action : String) (targetUserId : Option String) : PermResult :=
  let isOwner := room.ownerId == socketData.userId
  let isModerator := setHas room.moderatorIds socketData.userId
  let isAdmin := socketData.userRole == "ADMIN"
  if action == "message:send" then
    if !room.settings.allowMessaging then
      ⟨false, some "Messaging is disabled in this room"⟩
    else ⟨true, none⟩
  else if action == "file:upload" then
    if !room.settings.allowFileSharing then
      ⟨false, some "File sharing is disabled in this room"⟩
    else ⟨true, none⟩
  else if action == "voice:join" then
    if !room.settings.allowVoiceChat then
      ⟨false, some "Voice chat is disabled in this room"⟩
    else ⟨true, none⟩
  else if action == "video:join" then
    if !room.settings.allowVideoChat then
      ⟨false, some "Video chat is disabled in this room"⟩
    else ⟨true, none⟩
  else if action == "member:mute" || action == "member:unmute" ||
      action == "member:warn" || action == "member:kick" then
    if isAdmin || isOwner || isModerator then
      if targetUserId == some socketData.userId && action != "member:unmute" then
        ⟨false, some "Cannot perform this action on yourself"⟩
      else if (match targetUserId with
               | some t => isTargetHigherRank socketData.userId t room
               | none => false) then
        ⟨false, some "Cannot moderate users with higher privileges"⟩
      else ⟨true, none⟩
    else ⟨false, some "Moderator privileges required"⟩
  else if action == "member:ban" || action == "member:unban" then
    if isAdmin || isOwner then
      if (match targetUserId with
          | some t => isTargetHigherRank socketData.userId t room
          | none => false) then
        ⟨false, some "Cannot ban users with higher privileges"⟩
      else ⟨true, none⟩
    else ⟨false, some "Owner privileges required"⟩
  else if action == "member:promote" || action == "member:demote" then
    if isAdmin || isOwner then ⟨true, none⟩
    else ⟨false, some "Owner privileges required"⟩
  else if action == "room:update_settings" || action == "room:delete" then
    if isAdmin || isOwner then ⟨true, none⟩
    else ⟨false, some "Owner privileges required"⟩
  else if action == "room:invite" then
    if room.isPublic || isAdmin || isOwner || isModerator then ⟨true, none⟩
    else ⟨false, some "Invitation privileges required"⟩
  else if action == "analytics:view" then
    if isAdmin || isOwner || isModerator then ⟨true, none⟩
    else ⟨false, some "Analytics access requires moderation privileges"⟩
  else
    -- Default to allowing basic room interactions
    ⟨true, none⟩

/-- `ModerationAction` (roomPermissions source). `type` is one of
`mute | unmute | kick | ban | unban | warn | timeout`, kept as a string;
`duration` is in minutes. -/
structure ModerationAction where
  type : String
  roomId : String
  targetUserId : String
  moderatorId : String
  reason : Option String
  duration : Option Nat
  timestamp : Nat
deriving DecidableEq

/-- The mutable maps of `RoomPermissionManager`. Warning counts are `Nat`,
mute/ban expiries and cooldown last-message times are `Nat` timestamps. -/
structure PermState where
  moderationHistory : List (String × List ModerationAction)
  userWarnings : List (String × List (String × Nat))
  userCooldowns : List (String × List (String × Nat))
  mutedUsers : List (String × List (String × Nat))
  bannedUsers : List (String × List (String × Nat))
deriving DecidableEq

/-- The empty `RoomPermissionManager` state (fresh constructor). -/
def PermState.empty : PermState := ⟨[], [], [], [], []⟩

/-- `isUserMuted` (roomPermissions source, lines 375–388): lazily purges an
expired mute (`new Date() > muteExpiry`) and reports the mute flag. -/
def isUserMuted (s : PermState) (roomId userId : String) (now : Nat) :
    Bool × PermState :=
  match mGet s.mutedUsers roomId with
  | none => (false, s)
  | some roomMuted =>
    match mGet roomMuted userId with
    | none => (false, s)
    | some muteExpiry =>
      if muteExpiry < now then
        (false, { s with mutedUsers := mSet s.mutedUsers roomId (mDel roomMuted userId) })
      else (true, s)

/-- `isUserBanned` (roomPermissions source, lines 390–403). -/
def isUserBanned (s : PermState) (roomId userId : String) (now : Nat) :
    Bool × PermState :=
  match mGet s.bannedUsers roomId with
  | none => (false, s)
  | some roomBanned =>
    match mGet roomBanned userId with
    | none => (false, s)
    | some banExpiry =>
      if banExpiry < now then
        (false, { s with bannedUsers := mSet s.bannedUsers roomId (mDel roomBanned userId) })
      else (true, s)

/-- `setUserMuted` (roomPermissions source). -/
def setUserMuted (s : PermState) (roomId userId : String) (expiry : Nat) : PermState :=
  let roomMuted := (mGet s.mutedUsers roomId).getD []
  { s with mutedUsers := mSet s.mutedUsers roomId (mSet roomMuted userId expiry) }

/-- `removeUserMuted` (roomPermissions source). -/
def removeUserMuted (s : PermState) (roomId userId : String) : PermState :=
  match mGet s.mutedUsers roomId with
  | none => s
  | some roomMuted =>
    { s with mutedUsers := mSet s.mutedUsers roomId (mDel roomMuted userId) }

/-- `setUserBanned` (roomPermissions source). -/
def setUserBanned (s : PermState) (roomId userId : String) (expiry : Nat) : PermState :=
  let roomBanned := (mGet s.bannedUsers roomId).getD []
  { s with bannedUsers := mSet s.bannedUsers roomId (mSet roomBanned userId expiry) }

/-- `removeUserBanned` (roomPermissions source). -/
def removeUserBanned (s : PermState) (roomId userId : String) : PermState :=
  match mGet s.bannedUsers roomId with
  | none => s
  | some roomBanned =>
    { s with bannedUsers := mSet s.bannedUsers roomId (mDel roomBanned userId) }

/-- `addUserWarning` (roomPermissions source). -/
def addUserWarning (s : PermState) (roomId userId : String) : PermState :=
  let roomWarnings := (mGet s.userWarnings roomId).getD []
  let currentWarnings := (mGet roomWarnings userId).getD 0
  { s with userWarnings := mSet s.userWarnings roomId (mSet roomWarnings userId (currentWarnings + 1)) }

/-- `getUserWarnings` (roomPermissions source). -/
def getUserWarnings (s : PermState) (roomId userId : String) : Nat :=
  ((mGet s.userWarnings roomId).bind (fun rw => mGet rw userId)).getD 0

/-- `isUserInCooldown` (roomPermissions source): the elapsed milliseconds,
divided by 1000, are compared against the cooldown window in seconds. -/
def isUserInCooldown (s : PermState) (roomId userId : String)
    (cooldownSeconds : Nat) (now : Nat) : Bool :=
  match (mGet s.userCooldowns roomId).bind (fun rc => mGet rc userId) with
  | none => false
  | some lastMessage => (now - lastMessage) / 1000 < cooldownSeconds

/-- `updateUserCooldown` (roomPermissions source). -/
def updateUserCooldown (s : PermState) (roomId userId : String) (now : Nat) : PermState :=
  let roomCooldowns := (mGet s.userCooldowns roomId).getD []
  { s with userCooldowns := mSet s.userCooldowns roomId (mSet roomCooldowns userId now) }

/-- `recordModerationAction` (roomPermissions source). -/
def recordModerationAction (s : PermState) (action : ModerationAction) : PermState :=
  let history := (mGet s.moderationHistory action.roomId).getD []
  { s with moderationHistory := mSet s.moderationHistory action.roomId (history ++ [action]) }

/-- `isMutedAction` (roomPermissions source, lines 471–478). -/
def isMutedAction (action : String) : Bool :=
  ["message:send", "voice:join", "video:join", "file:upload"].contains action

/-- Outcome of `applyModerationAction`: `{ success, message }`. -/
structure ModerationOutcome where
  success : Bool
  message : String
deriving DecidableEq

/-- `applyModerationAction` (roomPermissions source, lines 212–320). The
`rooms` map of the `RoomManager` is passed read-only (only `getRoomInfo` is
consulted). Success paths record the action in the history; the default
branch signals an unknown action without recording. -/
def applyModerationAction (s : PermState) (rooms : List (String × RoomInfo))
    (moderatorId : String) (type roomId targetUserId : String)
    (reason : Option String) (duration : Option Nat) (now : Nat) :
    ModerationOutcome × PermState :=
  match mGet rooms roomId with
  | none => (⟨false, "Room not found"⟩, s)
  | some _room =>
    let act : ModerationAction :=
      ⟨type, roomId, targetUserId, moderatorId, reason, duration, now⟩
    if type == "mute" then
      let muteExpiry := match duration with
        | some d => now + d * 60000
        | none => now + 30 * 60000
      let s₁ := setUserMuted s roomId targetUserId muteExpiry
      (⟨true, "User muted until " ++ toString muteExpiry⟩, recordModerationAction s₁ act)
    else if type == "unmute" then
      (⟨true, "User unmuted"⟩, recordModerationAction (removeUserMuted s roomId targetUserId) act)
    else if type == "ban" then
      let banExpiry := match duration with
        | some d => now + d * 60000
        | none => now + 24 * 60 * 60000
      let s₁ := setUserBanned s roomId targetUserId banExpiry
      (⟨true, "User banned until " ++ toString banExpiry⟩, recordModerationAction s₁ act)
    else if type == "unban" then
      (⟨true, "User unbanned"⟩, recordModerationAction (removeUserBanned s roomId targetUserId) act)
    else if type == "warn" then
      let s₁ := addUserWarning s roomId targetUserId
      let warningCount := getUserWarnings s₁ roomId targetUserId
      let message := "User warned (" ++ toString warningCount ++ " warnings)"
      if 3 ≤ warningCount then
        let s₂ := setUserMuted s₁ roomId targetUserId (now + 10 * 60000)
        (⟨true, message ++ " - Auto-muted for repeated warnings"⟩, recordModerationAction s₂ act)
      else
        (⟨true, message⟩, recordModerationAction s₁ act)
    else if type == "timeout" then
      let timeoutDuration := duration.getD 5
      let s₁ := setUserMuted s roomId targetUserId (now + timeoutDuration * 60000)
      (⟨true, "User timed out for " ++ toString timeoutDuration ++ " minutes"⟩,
       recordModerationAction s₁ act)
    else if type == "kick" then
      (⟨true, "User kicked from room"⟩, recordModerationAction s act)
    else
      (⟨false, "Unknown moderation action"⟩, s)

/-- Return shape of `getUserModerationStatus`. -/
structure ModerationStatus where
  isMuted : Bool
  muteExpiry : Option Nat
  isBanned : Bool
  banExpiry : Option Nat
  warnings : Nat
  inCooldown : Bool
deriving DecidableEq

/-- `getUserModerationStatus` (roomPermissions source, lines 498–533). As in
the source, the raw `muteExpiry` / `banExpiry` are read before the lazy
checks run (so the returned record can carry an expiry the checks purge). -/
def getUserModerationStatus (s : PermState) (roomId userId : String) (now : Nat) :
    ModerationStatus × PermState :=
  let muteExpiry := (mGet s.mutedUsers roomId).bind (fun rm => mGet rm userId)
  let banExpiry := (mGet s.bannedUsers roomId).bind (fun rb => mGet rb userId)
  let r₁ := isUserMuted s roomId userId now
  let r₂ := isUserBanned r₁.2 roomId userId now
  (⟨r₁.1, muteExpiry, r₂.1, banExpiry,
    getUserWarnings r₂.2 roomId userId,
    isUserInCooldown r₂.2 roomId userId 5 now⟩, r₂.2)

/-- One socket.io room broadcast, as recorded by `broadcastRoomEvent`. -/
structure BroadcastEvent where
  roomId : String
  event : String
  excludeSocketId : Option String
deriving DecidableEq

/-- The mutable maps of `RoomManager`, plus the trace of room broadcasts. -/
structure RMState where
  rooms : List (String × RoomInfo)
  roomMembers : List (String × List (String × RoomMember))
  userRooms : List (String × List String)
  eventLog : List BroadcastEvent
deriving DecidableEq

/-- `broadcastRoomEvent` (roomManager source): appends to the trace. -/
def broadcastRoomEvent (s : RMState) (roomId event : String)
    (excludeSocketId : Option String) : RMState :=
  { s with eventLog := s.eventLog ++ [⟨roomId, event, excludeSocketId⟩] }

/-- `getDefaultRoomSettings` (roomManager source). -/
def getDefaultRoomSettings : RoomSettings :=
  ⟨true, true, false, false, "basic", 30, true, ⟨true, true, true⟩⟩

/-- `getRoomPermissions` (roomManager source): the permission set granted on
join, from the global role and the requested room role. -/
def getRoomPermissions (userRole roomRole : String) : List String :=
  let p₀ := setAdd (setAdd [] "room:view") "room:message"
  let p₁ :=
    if roomRole == "moderator" || roomRole == "owner" then
      setAdd (setAdd (setAdd p₀ "room:moderate") "room:manage_members") "room:mute_users"
    else p₀
  let p₂ :=
    if roomRole == "owner" then
      setAdd (setAdd (setAdd p₁ "room:delete") "room:update_settings") "room:add_moderators"
    else p₁
  if userRole == "ADMIN" then
    setAdd (setAdd (setAdd (setAdd p₂ "room:delete") "room:update_settings") "room:moderate")
      "room:manage_members"
  else p₂

/-- `canUserJoinRoom` (roomManager source, lines 543–559). -/
def canUserJoinRoom (userId : String) (room : RoomInfo) : Bool :=
  if room.isPublic then true
  else if setHas room.memberIds userId then true
  else if room.roomType == "class" && room.classId.isSome then true
  else false

/-- The `roomData` argument of `createRoom`. -/
structure CreateRoomData where
  name : String
  description : Option String
  roomType : String
  isPublic : Option Bool
  maxMembers : Option Nat
  classId : Option String
deriving DecidableEq

/-- `createRoom` (roomManager source, lines 173–240). The generated id is
`` `${roomType}:${Date.now()}_${random}` ``; the random suffix is an explicit
argument. The Redis write is fire-and-forget and internally caught, so the
only `null` path (an unexpected exception) is never taken: the embedding
always returns `some`. -/
def createRoom (s : RMState) (creatorId : String) (roomData : CreateRoomData)
    (now : Nat) (randSuffix : String) : Option RoomInfo × RMState :=
  let roomId := roomData.roomType ++ ":" ++ toString now ++ "_" ++ randSuffix
  let roomInfo : RoomInfo :=
    { roomId := roomId
      roomType := roomData.roomType
      name := roomData.name
      description := roomData.description
      classId := roomData.classId
      ownerId := creatorId
      moderatorIds := [creatorId]
      memberIds := [creatorId]
      isPublic := roomData.isPublic.getD false
      maxMembers := roomData.maxMembers.getD 50
      settings := getDefaultRoomSettings
      metadata := ⟨0, 1, 0, none, 0, [roomData.roomType], false, none⟩
      createdAt := now
      lastActivity := now }
  let s₁ : RMState :=
    { s with rooms := mSet s.rooms roomId roomInfo
             roomMembers := mSet s.roomMembers roomId [] }
  let userSet := (mGet s₁.userRooms creatorId).getD []
  let s₂ := { s₁ with userRooms := mSet s₁.userRooms creatorId (setAdd userSet roomId) }
  (some roomInfo, s₂)

/-- Options of `joinRoom`: `{ role = 'member', validateAccess = true }`. -/
structure JoinOptions where
  role : String := "member"
  validateAccess : Bool := true
deriving DecidableEq

/-- Result of `joinRoom`. -/
structure JoinResult where
  success : Bool
  message : String
  roomInfo : Option RoomInfo
deriving DecidableEq

/-- The in-place mutation `joinRoom` performs on the shared room object:
add the member, bump `activeMembers`, refresh `lastActivity`, and lift
`peakConcurrentUsers` if exceeded. -/
def joinUpdatedRoom (room : RoomInfo) (userId : String) (now : Nat) : RoomInfo :=
  let activeMembers₁ := room.metadata.activeMembers + 1
  let room₁ :=
    { room with memberIds := setAdd room.memberIds userId
                metadata := { room.metadata with activeMembers := activeMembers₁ }
                lastActivity := now }
  if room₁.metadata.peakConcurrentUsers < room₁.metadata.activeMembers then
    { room₁ with metadata :=
        { room₁.metadata with peakConcurrentUsers := room₁.metadata.activeMembers } }
  else room₁

/-- The room-role assigned to the joining member (roomManager source,
lines 284–285). -/
def joinMemberRole (room : RoomInfo) (userId optionRole : String) : String :=
  if setHas room.moderatorIds userId then "moderator"
  else if room.ownerId == userId then "owner"
  else optionRole

/-- `joinRoom` (roomManager source, lines 245–342). Failure paths return
before any mutation; the success path mutates the room, the member map and
the user-room index, then broadcasts `user:joined_class` excluding the
joining socket. -/
def joinRoom (s : RMState) (socket : Socket) (roomId : String)
    (opts : JoinOptions) (now : Nat) : JoinResult × RMState :=
  let userId := socket.data.userId
  match mGet s.rooms roomId with
  | none => (⟨false, "Room not found", none⟩, s)
  | some room =>
    if opts.validateAccess && !canUserJoinRoom userId room then
      (⟨false, "Access denied to this room", none⟩, s)
    else if room.maxMembers ≤ room.memberIds.length && !setHas room.moderatorIds userId then
      (⟨false, "Room is at maximum capacity", none⟩, s)
    else
      let room₂ := joinUpdatedRoom room userId now
      let roomMember : RoomMember :=
        ⟨userId, socket.id, joinMemberRole room userId opts.role, now, now,
         getRoomPermissions socket.data.userRole opts.role, false, false⟩
      let membersMap := (mGet s.roomMembers roomId).getD []
      let userSet := (mGet s.userRooms userId).getD []
      let s₁ : RMState :=
        { rooms := mSet s.rooms roomId room₂
          roomMembers := mSet s.roomMembers roomId (mSet membersMap userId roomMember)
          userRooms := mSet s.userRooms userId (setAdd userSet roomId)
          eventLog := s.eventLog ++ [⟨roomId, "user:joined_class", some socket.id⟩] }
      (⟨true, "Successfully joined room", some room₂⟩, s₁)

/-- Result of `leaveRoom`. -/
structure LeaveResult where
  success : Bool
  message : String
deriving DecidableEq

/-- `leaveRoom` (roomManager source, lines 347–413). No owner guard: the
leaving user — whoever they are — is removed from `memberIds`, the member
map and the user-room index, then `user:left_class` is broadcast. -/
def leaveRoom (s : RMState) (socket : Socket) (roomId : String) (now : Nat) :
    LeaveResult × RMState :=
  let userId := socket.data.userId
  match mGet s.rooms roomId with
  | none => (⟨false, "Room not found"⟩, s)
  | some room =>
    let room₁ :=
      { room with memberIds := setDel room.memberIds userId
                  metadata := { room.metadata with
                    activeMembers := room.metadata.activeMembers - 1 }
                  lastActivity := now }
    let roomMembers₁ :=
      match mGet s.roomMembers roomId with
      | none => s.roomMembers
      | some mm => mSet s.roomMembers roomId (mDel mm userId)
    let userRooms₁ :=
      match mGet s.userRooms userId with
      | none => s.userRooms
      | some ur =>
        let ur₁ := setDel ur roomId
        if ur₁.isEmpty then mDel s.userRooms userId
        else mSet s.userRooms userId ur₁
    (⟨true, "Successfully left room"⟩,
     { rooms := mSet s.rooms roomId room₁
       roomMembers := roomMembers₁
       userRooms := userRooms₁
       eventLog := s.eventLog ++ [⟨roomId, "user:left_class", none⟩] })

/-- `getRoomInfo` (roomManager source). -/
def getRoomInfo (s : RMState) (roomId : String) : Option RoomInfo :=
  mGet s.rooms roomId

/-- `getRoomMembers` (roomManager source). -/
def getRoomMembers (s : RMState) (roomId : String) : List RoomMember :=
  ((mGet s.roomMembers roomId).getD []).map (fun p => p.2)

/-- `hasRoomPermission` (roomPermissions source, lines 53–91): room lookup,
membership, lazy ban check, lazy mute check for mute-sensitive actions,
member-record lookup, then `checkActionPermission`. The lazy checks may
purge expired entries, so the permission-manager state is threaded. -/
def hasRoomPermission (pm : PermState) (rm : RMState) (socket : Socket)
    (ctx : RoomPermissionContext) (now : Nat) : PermResult × PermState :=
  let socketData := socket.data
  match getRoomInfo rm ctx.roomId with
  | none => (⟨false, some "Room not found"⟩, pm)
  | some room =>
    if !setHas room.memberIds socketData.userId then
      (⟨false, some "Not a member of this room"⟩, pm)
    else
      let b := isUserBanned pm ctx.roomId socketData.userId now
      if b.1 then (⟨false, some "User is banned from this room"⟩, b.2)
      else
        let m := isUserMuted b.2 ctx.roomId socketData.userId now
        if m.1 && isMutedAction ctx.action then
          (⟨false, some "User is muted in this room"⟩, m.2)
        else
          match (getRoomMembers rm ctx.roomId).find? (fun mem => mem.userId == socketData.userId) with
          | none => (⟨false, some "User not found in room members"⟩, m.2)
          | some userMember =>
            (checkActionPermission socketData userMember room ctx.action ctx.targetUserId, m.2)

/-- `UserActivity` (roomAnalytics source). `totalTimeSpent` is in minutes
(the source's float division by 60000 becomes `Nat` division). -/
structure UserActivity where
  userId : String
  roomId : String
  messagesCount : Nat
  lastActivity : Nat
  sessionStart : Nat
  totalTimeSpent : Nat
  fileUploads : Nat
  reactionsGiven : Nat
  mentionsReceived : Nat
  isCurrentlyActive : Bool
deriving DecidableEq

/-- The engagement-tier counters of `RoomMetrics.userEngagement`. -/
structure UserEngagement where
  veryActive : Nat
  active : Nat
  passive : Nat
  lurkers : Nat
deriving DecidableEq

/-- `RoomMetrics` (roomAnalytics source). `averageMessageLength` and
`moderationActions` are hard-coded to 0 in the source;
`averageSessionDuration` keeps the source's arithmetic with `Nat` division. -/
structure RoomMetrics where
  roomId : String
  timestamp : Nat
  activeUsers : Nat
  totalMessages : Nat
  messagesPerHour : Nat
  averageMessageLength : Nat
  userEngagement : UserEngagement
  peakConcurrentUsers : Nat
  averageSessionDuration : Nat
  fileUploads : Nat
  moderationActions : Nat
deriving DecidableEq

/-- The mutable maps of `RoomAnalyticsManager` needed by the embedded
operations: the per-room metrics history and the per-room per-user
activity map. -/
structure AnalyticsState where
  metricsBuffer : List (String × List RoomMetrics)
  userActivities : List (String × List (String × UserActivity))
deriving DecidableEq

/-- The empty `RoomAnalyticsManager` state. -/
def AnalyticsState.empty : AnalyticsState := ⟨[], []⟩

/-- `recordUserActivity` (roomAnalytics source, lines 126–185): fetches or
creates the per-user record, updates the counter named by the event type,
and refreshes `lastActivity`. -/
def recordUserActivity (st : AnalyticsState) (roomId userId activityType : String)
    (now : Nat) : AnalyticsState :=
  let roomActivities := (mGet st.userActivities roomId).getD []
  let userActivity : UserActivity :=
    match mGet roomActivities userId with
    | some ua => ua
    | none => ⟨userId, roomId, 0, now, now, 0, 0, 0, 0, true⟩
  let ua₁ :=
    if activityType == "message" then
      { userActivity with messagesCount := userActivity.messagesCount + 1 }
    else if activityType == "file_upload" then
      { userActivity with fileUploads := userActivity.fileUploads + 1 }
    else if activityType == "reaction" then
      { userActivity with reactionsGiven := userActivity.reactionsGiven + 1 }
    else if activityType == "mention" then
      { userActivity with mentionsReceived := userActivity.mentionsReceived + 1 }
    else if activityType == "join" then
      { userActivity with sessionStart := now, isCurrentlyActive := true }
    else if activityType == "leave" then
      if userActivity.isCurrentlyActive then
        { userActivity with
          totalTimeSpent := userActivity.totalTimeSpent + (now - userActivity.sessionStart) / 60000
          isCurrentlyActive := false }
      else userActivity
    else userActivity
  let ua₂ := { ua₁ with lastActivity := now }
  { st with userActivities := mSet st.userActivities roomId (mSet roomActivities userId ua₂) }

/-- One step of the engagement fold in `calculateUserEngagement`
(roomAnalytics source, lines 262–274). -/
def engagementStep (e : UserEngagement) (a : UserActivity) : UserEngagement :=
  let hourlyMessages := a.messagesCount
  if 10 < hourlyMessages then { e with veryActive := e.veryActive + 1 }
  else if 3 ≤ hourlyMessages then { e with active := e.active + 1 }
  else if 1 ≤ hourlyMessages then { e with passive := e.passive + 1 }
  else if a.isCurrentlyActive then { e with lurkers := e.lurkers + 1 }
  else e

/-- `calculateUserEngagement` (roomAnalytics source, lines 254–277): a fold
of `engagementStep` over the tracked activities, starting from zeros. -/
def calculateUserEngagement (roomActivities : List UserActivity) : UserEngagement :=
  roomActivities.foldl engagementStep ⟨0, 0, 0, 0⟩

/-- `generateRoomMetrics` (roomAnalytics source, lines 190–249): computes
the snapshot from the tracked activities, appends it to the metrics buffer
and evicts samples older than 24 hours. -/
def generateRoomMetrics (st : AnalyticsState) (rm : RMState) (roomId : String)
    (now : Nat) : Option RoomMetrics × AnalyticsState :=
  match getRoomInfo rm roomId with
  | none => (none, st)
  | some room =>
    let roomActivities := ((mGet st.userActivities roomId).getD []).map (fun p => p.2)
    let oneHourAgo := now - 3600000
    let activeUsers := (roomActivities.filter (fun a => a.isCurrentlyActive)).length
    let recentActivities := roomActivities.filter (fun a => oneHourAgo < a.lastActivity)
    let totalMessages := roomActivities.foldl (fun sum a => sum + a.messagesCount) 0
    let messagesPerHour := recentActivities.foldl (fun sum a => sum + a.messagesCount) 0
    let fileUploads := roomActivities.foldl (fun sum a => sum + a.fileUploads) 0
    let userEngagement := calculateUserEngagement roomActivities
    let activeSessions := recentActivities.filter (fun a => a.isCurrentlyActive)
    let averageSessionDuration :=
      if 0 < activeSessions.length then
        (activeSessions.foldl (fun sum a => sum + a.totalTimeSpent) 0) / activeSessions.length
      else 0
    let metrics : RoomMetrics :=
      ⟨roomId, now, activeUsers, totalMessages, messagesPerHour, 0, userEngagement,
       room.metadata.peakConcurrentUsers, averageSessionDuration, fileUploads, 0⟩
    let history := (mGet st.metricsBuffer roomId).getD []
    let dayAgo := now - 86400000
    let filteredHistory := (history ++ [metrics]).filter (fun m => dayAgo < m.timestamp)
    (some metrics, { st with metricsBuffer := mSet st.metricsBuffer roomId filteredHistory })

/-- Number of actors tracked for a room in the analytics activity map. -/
def trackedActorCount (st : AnalyticsState) (roomId : String) : Nat :=
  ((mGet st.userActivities roomId).getD []).length

/-- The sum of the four engagement-tier counters. -/
def UserEngagement.total (e : UserEngagement) : Nat :=
  e.veryActive + e.active + e.passive + e.lurkers

/-- The action strings `checkActionPermission` handles explicitly; every
other action falls into its default branch. -/
def handledActions : List String :=
  ["message:send", "file:upload", "voice:join", "video:join",
   "member:mute", "member:unmute", "member:warn", "member:kick",
   "member:ban", "member:unban", "member:promote", "member:demote",
   "room:update_settings", "room:delete", "room:invite", "analytics:view"]

/-- Occurrences of an id in a member list (a set has at most one). -/
def occCount (s : List String) (x : String) : Nat :=
  (s.filter (fun y => y == x)).length

/-- Occurrences of a key among the bindings of an association-list map. -/
def mapKeyCount {β : Type} (m : List (String × β)) (k : String) : Nat :=
  (m.filter (fun p => p.1 == k)).length

/-- Number of `user:joined_class` broadcasts in a trace. -/
def joinedEventCount (log : List BroadcastEvent) : Nat :=
  (log.filter (fun e => e.event == "user:joined_class")).length

/-- Fixture: default metadata for a hand-built room. -/
def sampleMetadata : RoomMetadata := ⟨0, 1, 0, none, 0, ["group"], false, none⟩

/-- Fixture: a public room owned by `"owner"`, with moderators
`"mod1"`, `"mod2"` and plain member `"u1"`. -/
def roomMods : RoomInfo :=
  { roomId := "room1", roomType := "group", name := "Room One", description := none,
    classId := none, ownerId := "owner", moderatorIds := ["owner", "mod1", "mod2"],
    memberIds := ["owner", "mod1", "mod2", "u1"], isPublic := true, maxMembers := 50,
    settings := getDefaultRoomSettings, metadata := sampleMetadata,
    createdAt := 0, lastActivity := 0 }

/-- Fixture: a freshly created public room owned by `"owner"`. -/
def roomPub : RoomInfo :=
  { roomId := "room1", roomType := "group", name := "Room One", description := none,
    classId := none, ownerId := "owner", moderatorIds := ["owner"],
    memberIds := ["owner"], isPublic := true, maxMembers := 50,
    settings := getDefaultRoomSettings, metadata := sampleMetadata,
    createdAt := 0, lastActivity := 0 }

/-- Fixture: a public two-seat room that is exactly at capacity. -/
def roomFull : RoomInfo :=
  { roomId := "roomF", roomType := "group", name := "Full Room", description := none,
    classId := none, ownerId := "owner", moderatorIds := ["owner"],
    memberIds := ["owner", "u1"], isPublic := true, maxMembers := 2,
    settings := getDefaultRoomSettings, metadata := sampleMetadata,
    createdAt := 0, lastActivity := 0 }

/-- Fixture: socket data of moderator `"mod1"` (a teacher, not an admin). -/
def sdMod1 : SocketData := ⟨"mod1", "TEACHER"⟩

/-- Fixture: socket data of the room owner (a teacher, not an admin). -/
def sdOwner : SocketData := ⟨"owner", "TEACHER"⟩

/-- Fixture: member record for `"mod1"`. -/
def umMod1 : RoomMember := ⟨"mod1", "s1", "moderator", 0, 0, [], false, false⟩

/-- Fixture: member record for `"owner"`. -/
def umOwner : RoomMember := ⟨"owner", "s0", "owner", 0, 0, [], false, false⟩

/-- Fixture: a connected student socket for `"alice"`. -/
def sockA : Socket := ⟨"sockA", ⟨"alice", "STUDENT"⟩⟩

/-- Fixture: a connected student socket for `"u2"`. -/
def sockU2 : Socket := ⟨"sockU2", ⟨"u2", "STUDENT"⟩⟩

/-- Fixture: a connected socket for the owner. -/
def sockOwner : Socket := ⟨"sockO", ⟨"owner", "TEACHER"⟩⟩

/-- Fixture: room-manager state holding just `roomPub`. -/
def stJoin : RMState := ⟨[("room1", roomPub)], [("room1", [])], [], []⟩

/-- Fixture: state after `"alice"` joined `roomPub` once. -/
def stJoin1 : RMState := (joinRoom stJoin sockA "room1" {} 1000).2

/-- Fixture: state after `"alice"` joined `roomPub` twice. -/
def stJoin2 : RMState := (joinRoom stJoin1 sockA "room1" {} 2000).2

/-- Fixture: room-manager state holding the at-capacity room. -/
def stFull : RMState := ⟨[("roomF", roomFull)], [("roomF", [])], [], []⟩

/-- Fixture: room-manager state in which the owner is a member of `roomPub`,
with a matching member record. -/
def stOwner : RMState :=
  ⟨[("room1", roomPub)], [("room1", [("owner", umOwner)])], [("owner", ["room1"])], []⟩

/-- Fixture: the rooms map passed read-only to `applyModerationAction`. -/
def roomsList1 : List (String × RoomInfo) := [("room1", roomPub)]

/-- Fixture: an empty room-manager state. -/
def stEmptyRM : RMState := ⟨[], [], [], []⟩

/-- Fixture: a descriptor whose name is empty. -/
def emptyNameData : CreateRoomData :=
  ⟨"", none, "group", some true, some 10, none⟩

/-- Fixture: analytics state after `"u1"` joined and then left `room1`
without ever sending a message (tracked, zero messages, not active). -/
def stAnalytics : AnalyticsState :=
  recordUserActivity
    (recordUserActivity AnalyticsState.empty "room1" "u1" "join" 1000)
    "room1" "u1" "leave" 2000

/-- Fixture: permission-manager state in which `"alice"` is muted in
`room1` until timestamp 500000. -/
def pmMutedAlice : PermState :=
  ⟨[], [], [], [("room1", [("alice", 500000)])], []⟩

/-- Fixture: `roomPub` with `"alice"` added as a plain member. -/
def roomAlice : RoomInfo := { roomPub with memberIds := ["owner", "alice"] }

/-- Fixture: member record for `"alice"`. -/
def umAlice : RoomMember := ⟨"alice", "sockA", "member", 0, 0, [], false, false⟩

/-- Fixture: room-manager state in which `"alice"` is a member of `roomAlice`
(member list and member record both present). -/
def stWithAlice : RMState :=
  ⟨[("room1", roomAlice)], [("room1", [("alice", umAlice)])],
   [("alice", ["room1"])], []⟩

/-- Fixture: a permission context for an action string no case handles. -/
def ctxDefault : RoomPermissionContext := ⟨"room1", "reaction:add", none, none⟩

/-- Fixture: a tracked actor with 12 messages in the last hour. -/
def actVery : UserActivity := ⟨"v", "room1", 12, 1000, 0, 0, 0, 0, 0, true⟩

/-- Fixture: a tracked actor present with 0 messages. -/
def actLurk : UserActivity := ⟨"l", "room1", 0, 1000, 0, 0, 0, 0, 0, true⟩

/-- Fixture: a tracked actor with 0 messages who is no longer active. -/
def actGone : UserActivity := ⟨"g", "room1", 0, 1000, 0, 0, 0, 0, 0, false⟩

/-! ### Generic lemmas about the map / set embedding -/

theorem mGet_mSet_self {β : Type} (m : List (String × β)) (k : String) (v : β) :
    mGet (mSet m k v) k = some v := by
  induction m with
  | nil => simp [mGet, mSet]
  | cons p rest ih =>
    obtain ⟨k₁, v₁⟩ := p
    by_cases h : k₁ = k
    · simp [mSet, mGet, h]
    · simp [mSet, mGet, h, ih]

theorem mGet_mSet_ne {β : Type} (m : List (String × β)) (k₁ k₂ : String) (v : β)
    (h : k₁ ≠ k₂) : mGet (mSet m k₁ v) k₂ = mGet m k₂ := by
  have h₂ : k₂ ≠ k₁ := Ne.symm h
  induction m with
  | nil => simp [mGet, mSet, h, h₂]
  | cons p rest ih =>
    obtain ⟨k, w⟩ := p
    by_cases hk : k = k₁
    · simp [mSet, mGet, hk, h, h₂]
    · by_cases hk₂ : k = k₂ <;> simp [mSet, mGet, hk, hk₂, h₂, ih]

theorem mGet_mDel_self {β : Type} (m : List (String × β)) (k : String) :
    mGet (mDel m k) k = none := by
  induction m with
  | nil => simp [mGet, mDel]
  | cons p rest ih =>
    obtain ⟨k₁, v₁⟩ := p
    by_cases h : k₁ = k
    · simpa [mDel, h] using ih
    · simpa [mDel, mGet, h] using ih

theorem setHas_setAdd_self (s : List String) (x : String) :
    setHas (setAdd s x) x = true := by
  by_cases h : x ∈ s
  · simp [setAdd, setHas, h]
  · simp [setAdd, setHas, h]

theorem setAdd_of_has (s : List String) (x : String) (h : setHas s x = true) :
    setAdd s x = s := by
  have hm : x ∈ s := by simpa [setHas] using h
  simp [setAdd, hm]

theorem setHas_setDel_self (s : List String) (x : String) :
    setHas (setDel s x) x = false := by
  have hx : ¬ x ∈ s.filter (fun y => y != x) := by
    intro hmem
    have hp := List.of_mem_filter hmem
    simp at hp
  simpa [setHas, setDel] using hx

theorem occCount_eq_zero_of_not_has (s : List String) (x : String)
    (h : setHas s x = false) : occCount s x = 0 := by
  have hmem : ¬ x ∈ s := by simpa [setHas] using h
  unfold occCount
  have hnil : s.filter (fun y => y == x) = [] := by
    rw [List.filter_eq_nil_iff]
    intro a ha
    simp only [beq_iff_eq]
    intro hax
    exact hmem (hax ▸ ha)
  simp [hnil]

theorem occCount_setAdd_of_not_has (s : List String) (x : String)
    (h : setHas s x = false) : occCount (setAdd s x) x = 1 := by
  have h₀ := occCount_eq_zero_of_not_has s x h
  have hmem : ¬ x ∈ s := by simpa [setHas] using h
  unfold occCount at h₀ ⊢
  simp [setAdd, hmem, List.filter_append, h₀]

theorem isTargetHigherRank_self (u : String) (room : RoomInfo) :
    isTargetHigherRank u u room = false := by
  simp only [isTargetHigherRank]
  cases h₁ : (room.ownerId == u) <;> cases h₂ : setHas room.moderatorIds u <;>
    simp [h₁, h₂]

/-- C1 counterexample: in `roomMods`, `"mod1"` is a moderator (not the owner,
not a global admin) and `"mod2"` is another moderator, yet the permission
decision for `member:mute` / `member:kick` against `"mod2"` is Allow — the
claimed rank invariant fails for moderator-on-moderator mute/kick. -/
theorem moderator_rank_claim_cx :
    setHas roomMods.moderatorIds "mod1" = true ∧
    roomMods.ownerId ≠ "mod1" ∧
    sdMod1.userId = "mod1" ∧
    sdMod1.userRole ≠ "ADMIN" ∧
    setHas roomMods.moderatorIds "mod2" = true ∧
    "mod2" ≠ roomMods.ownerId ∧
    (checkActionPermission sdMod1 umMod1 roomMods "member:mute" (some "mod2")).allowed = true ∧
    (checkActionPermission sdMod1 umMod1 roomMods "member:kick" (some "mod2")).allowed = true := by
  decide

/-- C1 amended: a moderator (not owner, not admin) is always denied
`member:ban` / `member:unban`; is denied `member:mute` / `member:kick` /
`member:warn` when the target is the (distinct) owner; but is ALLOWED
`member:mute` / `member:kick` against another moderator — equal moderator
rank does not protect the target. -/
theorem moderator_rank_amended
    (room : RoomInfo) (sd : SocketData) (um : RoomMember) (target : String)
    (hmod : setHas room.moderatorIds sd.userId = true)
    (hnotowner : room.ownerId ≠ sd.userId)
    (hnotadmin : sd.userRole ≠ "ADMIN") :
    ((checkActionPermission sd um room "member:ban" (some target)).allowed = false) ∧
    ((checkActionPermission sd um room "member:unban" (some target)).allowed = false) ∧
    (target = room.ownerId →
      (checkActionPermission sd um room "member:mute" (some target)).allowed = false ∧
      (checkActionPermission sd um room "member:kick" (some target)).allowed = false ∧
      (checkActionPermission sd um room "member:warn" (some target)).allowed = false) ∧
    (setHas room.moderatorIds target = true → target ≠ room.ownerId → target ≠ sd.userId →
      (checkActionPermission sd um room "member:mute" (some target)).allowed = true ∧
      (checkActionPermission sd um room "member:kick" (some target)).allowed = true) := by
  have hadm : (sd.userRole == "ADMIN") = false := by simp [hnotadmin]
  have hown : (room.ownerId == sd.userId) = false := by simp [hnotowner]
  refine ⟨?_, ?_, ?_, ?_⟩
  · simp [checkActionPermission, hadm, hown]
  · simp [checkActionPermission, hadm, hown]
  · intro ht
    subst ht
    refine ⟨?_, ?_, ?_⟩ <;>
      simp [checkActionPermission, isTargetHigherRank, hadm, hown, hmod, hnotowner]
  · intro hmodt hto hts
    have hto' : (room.ownerId == target) = false := by simp [Ne.symm hto]
    have hts' : (target == sd.userId) = false := by simp [hts]
    constructor <;>
      simp [checkActionPermission, isTargetHigherRank, hadm, hown, hmod, hmodt, hto', hts, hts']

/-- C1 amended, witnessed at the concrete fixture: moderator `"mod1"` in
`roomMods` is denied banning `"mod2"`, denied muting the owner, and allowed
muting fellow moderator `"mod2"`. -/
theorem moderator_rank_amended_witness :
    (checkActionPermission sdMod1 umMod1 roomMods "member:ban" (some "mod2")).allowed = false ∧
    (checkActionPermission sdMod1 umMod1 roomMods "member:mute" (some "owner")).allowed = false ∧
    (checkActionPermission sdMod1 umMod1 roomMods "member:mute" (some "mod2")).allowed = true := by
  have h₁ := moderator_rank_amended roomMods sdMod1 umMod1 "mod2"
    (by decide) (by decide) (by decide)
  have h₂ := moderator_rank_amended roomMods sdMod1 umMod1 "owner"
    (by decide) (by decide) (by decide)
  exact ⟨h₁.1, (h₂.2.2.1 (by decide)).1, (h₁.2.2.2 (by decide) (by decide) (by decide)).1⟩

/-- C8 counterexample: the room owner, targeting themself, is ALLOWED
`member:unmute` (the self-action guard explicitly excepts unmute) and is
ALLOWED `member:ban` (the ban branch has no self-targeting guard at all) —
refuting the claim that every self-targeted moderation action is denied. -/
theorem self_targeting_claim_cx :
    sdOwner.userId = "owner" ∧
    roomMods.ownerId = "owner" ∧
    (checkActionPermission sdOwner umOwner roomMods "member:unmute" (some "owner")).allowed = true ∧
    (checkActionPermission sdOwner umOwner roomMods "member:ban" (some "owner")).allowed = true := by
  decide

/-- C8 amended: self-targeting is denied for `member:mute` / `member:warn` /
`member:kick` (for every actor); but a privileged actor (admin, owner or
moderator) may unmute themself, and an admin or owner may self-ban,
self-unban, self-promote and self-demote — those branches have no
self-targeting guard. -/
theorem self_targeting_amended (room : RoomInfo) (sd : SocketData) (um : RoomMember) :
    ((checkActionPermission sd um room "member:mute" (some sd.userId)).allowed = false) ∧
    ((checkActionPermission sd um room "member:warn" (some sd.userId)).allowed = false) ∧
    ((checkActionPermission sd um room "member:kick" (some sd.userId)).allowed = false) ∧
    ((sd.userRole == "ADMIN" || room.ownerId == sd.userId ||
        setHas room.moderatorIds sd.userId) = true →
      (checkActionPermission sd um room "member:unmute" (some sd.userId)).allowed = true) ∧
    ((sd.userRole == "ADMIN" || room.ownerId == sd.userId) = true →
      (checkActionPermission sd um room "member:ban" (some sd.userId)).allowed = true ∧
      (checkActionPermission sd um room "member:unban" (some sd.userId)).allowed = true ∧
      (checkActionPermission sd um room "member:promote" (some sd.userId)).allowed = true ∧
      (checkActionPermission sd um room "member:demote" (some sd.userId)).allowed = true) := by
  have hself := isTargetHigherRank_self sd.userId room
  refine ⟨?_, ?_, ?_, ?_, ?_⟩ <;>
  · cases hA : (sd.userRole == "ADMIN") <;> cases hO : (room.ownerId == sd.userId) <;>
      cases hM : setHas room.moderatorIds sd.userId <;>
      simp [checkActionPermission, hA, hO, hM, hself]

/-- C8 amended, witnessed at the owner fixture: self-mute denied, self-unmute
allowed, self-ban allowed. -/
theorem self_targeting_amended_witness :
    (checkActionPermission sdOwner umOwner roomMods "member:mute" (some sdOwner.userId)).allowed = false ∧
    (checkActionPermission sdOwner umOwner roomMods "member:unmute" (some sdOwner.userId)).allowed = true ∧
    (checkActionPermission sdOwner umOwner roomMods "member:ban" (some sdOwner.userId)).allowed = true := by
  have h := self_targeting_amended roomMods sdOwner umOwner
  exact ⟨h.1, h.2.2.2.1 (by decide), (h.2.2.2.2 (by decide)).1⟩

/-- C10 confirmed: for any action string outside the explicitly handled list,
`hasRoomPermission` allows any room member who is not banned — regardless of
room role, global role, or mute state (unrecognized actions are never
mute-sensitive). -/
theorem default_action_allowed (pm : PermState) (rm : RMState) (socket : Socket)
    (ctx : RoomPermissionContext) (now : Nat) (room : RoomInfo) (um : RoomMember)
    (h0 : getRoomInfo rm ctx.roomId = some room)
    (h1 : setHas room.memberIds socket.data.userId = true)
    (h2 : (isUserBanned pm ctx.roomId socket.data.userId now).1 = false)
    (h3 : (getRoomMembers rm ctx.roomId).find?
            (fun mem => mem.userId == socket.data.userId) = some um)
    (h4 : handledActions.contains ctx.action = false) :
    (hasRoomPermission pm rm socket ctx now).1.allowed = true := by
  simp [handledActions] at h4
  obtain ⟨n₁, n₂, n₃, n₄, n₅, n₆, n₇, n₈, n₉, n₁₀, n₁₁, n₁₂, n₁₃, n₁₄, n₁₅, n₁₆⟩ := h4
  have hmf : isMutedAction ctx.action = false := by
    simp [isMutedAction, n₁, n₂, n₃, n₄]
  simp [hasRoomPermission, h0, h1, h2, h3, hmf, checkActionPermission,
    n₁, n₂, n₃, n₄, n₅, n₆, n₇, n₈, n₉, n₁₀, n₁₁, n₁₂, n₁₃, n₁₄, n₁₅, n₁₆]

/-- C10 witnessed: muted (but unbanned) member `"alice"` is allowed the
unhandled action `reaction:add`. -/
theorem default_action_allowed_witness :
    (hasRoomPermission pmMutedAlice stWithAlice sockA ctxDefault 100).1.allowed = true :=
  default_action_allowed pmMutedAlice stWithAlice sockA ctxDefault 100 roomAlice umAlice
    (by decide) (by decide) (by decide) (by decide) (by decide)

/-! ### Lemmas about `joinRoom` / `leaveRoom` / `createRoom` -/

theorem setAdd_length_of_not_has (s : List String) (x : String)
    (h : setHas s x = false) : (setAdd s x).length = s.length + 1 := by
  have hmem : ¬ x ∈ s := by simpa [setHas] using h
  simp [setAdd, hmem]

theorem mapKeyCount_eq_zero_of_none {β : Type} (m : List (String × β)) (k : String)
    (h : mGet m k = none) : mapKeyCount m k = 0 := by
  induction m with
  | nil => simp [mapKeyCount]
  | cons p rest ih =>
    obtain ⟨k₁, v₁⟩ := p
    by_cases hk : k₁ = k
    · simp [mGet, hk] at h
    · have hk₁ : (k₁ == k) = false := by simp [hk]
      simp [mGet, hk] at h
      simpa [mapKeyCount, List.filter, hk₁] using ih h

theorem mapKeyCount_mSet_of_none {β : Type} (m : List (String × β)) (k : String) (v : β)
    (h : mGet m k = none) : mapKeyCount (mSet m k v) k = mapKeyCount m k + 1 := by
  induction m with
  | nil => simp [mapKeyCount, mSet]
  | cons p rest ih =>
    obtain ⟨k₁, v₁⟩ := p
    by_cases hk : k₁ = k
    · simp [mGet, hk] at h
    · have hk₁ : (k₁ == k) = false := by simp [hk]
      simp [mGet, hk] at h
      simpa [mSet, mapKeyCount, List.filter, hk, hk₁] using ih h

theorem mapKeyCount_mSet_of_some {β : Type} (m : List (String × β)) (k : String) (v w : β)
    (h : mGet m k = some w) : mapKeyCount (mSet m k v) k = mapKeyCount m k := by
  induction m with
  | nil => simp [mGet] at h
  | cons p rest ih =>
    obtain ⟨k₁, v₁⟩ := p
    by_cases hk : k₁ = k
    · simp [mSet, mapKeyCount, List.filter, hk]
    · have hk₁ : (k₁ == k) = false := by simp [hk]
      simp [mGet, hk] at h
      simpa [mSet, mapKeyCount, List.filter, hk, hk₁] using ih h

theorem canUserJoinRoom_of_member (u : String) (room : RoomInfo)
    (h : setHas room.memberIds u = true) : canUserJoinRoom u room = true := by
  by_cases hp : room.isPublic = true <;> simp [canUserJoinRoom, hp, h]

theorem joinUpdatedRoom_memberIds (room : RoomInfo) (u : String) (n : Nat) :
    (joinUpdatedRoom room u n).memberIds = setAdd room.memberIds u := by
  unfold joinUpdatedRoom
  dsimp only
  split <;> rfl

theorem joinUpdatedRoom_maxMembers (room : RoomInfo) (u : String) (n : Nat) :
    (joinUpdatedRoom room u n).maxMembers = room.maxMembers := by
  unfold joinUpdatedRoom
  dsimp only
  split <;> rfl

theorem joinUpdatedRoom_moderatorIds (room : RoomInfo) (u : String) (n : Nat) :
    (joinUpdatedRoom room u n).moderatorIds = room.moderatorIds := by
  unfold joinUpdatedRoom
  dsimp only
  split <;> rfl

theorem joinUpdatedRoom_isPublic (room : RoomInfo) (u : String) (n : Nat) :
    (joinUpdatedRoom room u n).isPublic = room.isPublic := by
  unfold joinUpdatedRoom
  dsimp only
  split <;> rfl

theorem joinRoom_not_found (s : RMState) (socket : Socket) (roomId : String)
    (opts : JoinOptions) (now : Nat) (h0 : mGet s.rooms roomId = none) :
    joinRoom s socket roomId opts now = (⟨false, "Room not found", none⟩, s) := by
  simp [joinRoom, h0]

theorem joinRoom_access_deny (s : RMState) (socket : Socket) (roomId : String)
    (opts : JoinOptions) (now : Nat) (room : RoomInfo)
    (h0 : mGet s.rooms roomId = some room)
    (hacc : (opts.validateAccess && !canUserJoinRoom socket.data.userId room) = true) :
    joinRoom s socket roomId opts now = (⟨false, "Access denied to this room", none⟩, s) := by
  simp [joinRoom, h0, hacc]

theorem joinRoom_capacity_deny (s : RMState) (socket : Socket) (roomId : String)
    (opts : JoinOptions) (now : Nat) (room : RoomInfo)
    (h0 : mGet s.rooms roomId = some room)
    (hacc : (opts.validateAccess && !canUserJoinRoom socket.data.userId room) = false)
    (hcap : (decide (room.maxMembers ≤ room.memberIds.length) &&
             !setHas room.moderatorIds socket.data.userId) = true) :
    joinRoom s socket roomId opts now = (⟨false, "Room is at maximum capacity", none⟩, s) := by
  simp [joinRoom, h0, hacc, hcap]

theorem joinRoom_success_eq (s : RMState) (socket : Socket) (roomId : String)
    (opts : JoinOptions) (now : Nat) (room : RoomInfo)
    (h0 : mGet s.rooms roomId = some room)
    (hacc : (opts.validateAccess && !canUserJoinRoom socket.data.userId room) = false)
    (hcap : (decide (room.maxMembers ≤ room.memberIds.length) &&
             !setHas room.moderatorIds socket.data.userId) = false) :
    joinRoom s socket roomId opts now =
      (⟨true, "Successfully joined room", some (joinUpdatedRoom room socket.data.userId now)⟩,
       { rooms := mSet s.rooms roomId (joinUpdatedRoom room socket.data.userId now)
         roomMembers := mSet s.roomMembers roomId
           (mSet ((mGet s.roomMembers roomId).getD []) socket.data.userId
             ⟨socket.data.userId, socket.id, joinMemberRole room socket.data.userId opts.role,
              now, now, getRoomPermissions socket.data.userRole opts.role, false, false⟩)
         userRooms := mSet s.userRooms socket.data.userId
           (setAdd ((mGet s.userRooms socket.data.userId).getD []) roomId)
         eventLog := s.eventLog ++ [⟨roomId, "user:joined_class", some socket.id⟩] }) := by
  simp [joinRoom, h0, hacc, hcap]

/-- C3 confirmed: (i) at capacity, a joining actor who is not the owner, not
a room moderator and not a global admin — and whose join is not rejected
earlier by the access check — gets the `Room is at maximum capacity` failure
with the state unchanged (so the check precedes every mutation); (ii) a
successful join can push the member count beyond `maxMembers` only when the
actor is the owner, a moderator or an admin. -/
theorem capacity_invariant (s : RMState) (socket : Socket) (roomId : String)
    (opts : JoinOptions) (now : Nat) (room : RoomInfo)
    (h0 : mGet s.rooms roomId = some room) :
    ((room.maxMembers ≤ room.memberIds.length) →
     room.ownerId ≠ socket.data.userId →
     setHas room.moderatorIds socket.data.userId = false →
     socket.data.userRole ≠ "ADMIN" →
     (opts.validateAccess = false ∨ canUserJoinRoom socket.data.userId room = true) →
     joinRoom s socket roomId opts now = (⟨false, "Room is at maximum capacity", none⟩, s)) ∧
    ((joinRoom s socket roomId opts now).1.success = true →
     room.memberIds.length ≤ room.maxMembers →
     ∀ room₁, mGet (joinRoom s socket roomId opts now).2.rooms roomId = some room₁ →
       room₁.memberIds.length ≤ room.maxMembers ∨
       room.ownerId = socket.data.userId ∨
       setHas room.moderatorIds socket.data.userId = true ∨
       socket.data.userRole = "ADMIN") := by
  constructor
  · intro hfull _hown hmod _hadm haccd
    have hacc : (opts.validateAccess && !canUserJoinRoom socket.data.userId room) = false := by
      rcases haccd with h | h <;> simp [h]
    have hcap : (decide (room.maxMembers ≤ room.memberIds.length) &&
        !setHas room.moderatorIds socket.data.userId) = true := by
      simp [hfull, hmod]
    exact joinRoom_capacity_deny s socket roomId opts now room h0 hacc hcap
  · intro hsucc hle room₁ hr₁
    cases hacc : (opts.validateAccess && !canUserJoinRoom socket.data.userId room) with
    | true =>
      rw [joinRoom_access_deny s socket roomId opts now room h0 hacc] at hsucc
      simp at hsucc
    | false =>
      cases hcap : (decide (room.maxMembers ≤ room.memberIds.length) &&
          !setHas room.moderatorIds socket.data.userId) with
      | true =>
        rw [joinRoom_capacity_deny s socket roomId opts now room h0 hacc hcap] at hsucc
        simp at hsucc
      | false =>
        rw [joinRoom_success_eq s socket roomId opts now room h0 hacc hcap] at hr₁
        simp [mGet_mSet_self] at hr₁
        subst hr₁
        rw [joinUpdatedRoom_memberIds]
        by_cases hhas : setHas room.memberIds socket.data.userId = true
        · left
          rw [setAdd_of_has room.memberIds socket.data.userId hhas]
          exact hle
        · have hhas' : setHas room.memberIds socket.data.userId = false := by
            simpa using hhas
          rw [setAdd_length_of_not_has room.memberIds socket.data.userId hhas']
          rcases Bool.and_eq_false_iff.mp hcap with h | h
          · left
            have : ¬ room.maxMembers ≤ room.memberIds.length := of_decide_eq_false h
            omega
          · right; right; left
            simpa using h
  
/-- C3 witnessed: student `"u2"` cannot join the full two-seat room; the
state is untouched. -/
theorem capacity_invariant_witness :
    joinRoom stFull sockU2 "roomF" {} 99 =
      (⟨false, "Room is at maximum capacity", none⟩, stFull) :=
  (capacity_invariant stFull sockU2 "roomF" {} 99 roomFull (by decide)).1
    (by decide) (by decide) (by decide) (by decide) (Or.inr (by decide))

/-- C4 counterexample: in `stOwner` the owner is a member of the (existing)
room, yet `leaveRoom` by the owner succeeds and removes the owner from the
member set while the room continues to exist — refuting the owner-membership
invariant. -/
theorem owner_membership_claim_cx :
    roomPub.ownerId = "owner" ∧
    setHas roomPub.memberIds "owner" = true ∧
    (leaveRoom stOwner sockOwner "room1" 50).1.success = true ∧
    ((mGet (leaveRoom stOwner sockOwner "room1" 50).2.rooms "room1").map
      (fun r => setHas r.memberIds "owner")) = some false := by
  decide

/-- C4 amended: `createRoom` does establish the owner as the sole initial
member, but `leaveRoom` has no owner guard — when the owner leaves, the
owner is removed from the member set while the room (still owned by them)
continues to exist. -/
theorem owner_membership_amended
    (s t : RMState) (creator : String) (rd : CreateRoomData) (n₁ : Nat) (suffix : String)
    (sock : Socket) (roomId : String) (room : RoomInfo) (n₂ : Nat)
    (h0 : mGet t.rooms roomId = some room)
    (h1 : sock.data.userId = room.ownerId) :
    (∃ r, (createRoom s creator rd n₁ suffix).1 = some r ∧
       r.ownerId = creator ∧ r.memberIds = [creator]) ∧
    ((leaveRoom t sock roomId n₂).1.success = true ∧
     ∃ r₁, mGet (leaveRoom t sock roomId n₂).2.rooms roomId = some r₁ ∧
       r₁.ownerId = room.ownerId ∧
       setHas r₁.memberIds room.ownerId = false) := by
  refine ⟨⟨_, rfl, rfl, rfl⟩, ?_, ?_⟩
  · simp [leaveRoom, h0]
  · refine ⟨{ room with
        memberIds := setDel room.memberIds sock.data.userId
        metadata := { room.metadata with activeMembers := room.metadata.activeMembers - 1 }
        lastActivity := n₂ }, ?_, rfl, ?_⟩
    · simp [leaveRoom, h0, mGet_mSet_self]
    · rw [← h1]
      exact setHas_setDel_self room.memberIds sock.data.userId

/-- C4 amended, witnessed: creating a room makes the creator its sole
member, and the concrete owner leave in `stOwner` strips the owner. -/
theorem owner_membership_amended_witness :
    (∃ r, (createRoom stEmptyRM "teacher1" emptyNameData 5 "abc").1 = some r ∧
       r.ownerId = "teacher1" ∧ r.memberIds = ["teacher1"]) ∧
    ((leaveRoom stOwner sockOwner "room1" 50).1.success = true ∧
     ∃ r₁, mGet (leaveRoom stOwner sockOwner "room1" 50).2.rooms "room1" = some r₁ ∧
       r₁.ownerId = roomPub.ownerId ∧
       setHas r₁.memberIds roomPub.ownerId = false) :=
  owner_membership_amended stEmptyRM stOwner "teacher1" emptyNameData 5 "abc"
    sockOwner "room1" roomPub 50 (by decide) (by decide)

/-- C5 counterexample: a descriptor with an empty name is accepted —
`createRoom` returns a room (named `""`) instead of signalling any
validation error. -/
theorem create_validation_claim_cx :
    emptyNameData.name = "" ∧
    (createRoom stEmptyRM "teacher1" emptyNameData 5 "abc").1.isSome = true ∧
    ((createRoom stEmptyRM "teacher1" emptyNameData 5 "abc").1.map RoomInfo.name) = some "" := by
  decide

/-- C5 amended: `createRoom` performs no name validation at all — every
descriptor (empty name included) succeeds and never signals a
`ValidationError`; the fresh id is `roomType:now_suffix`; and the creator
becomes owner, sole initial member and sole moderator. -/
theorem create_no_validation_amended (s : RMState) (creatorId : String)
    (rd : CreateRoomData) (now : Nat) (suffix : String) :
    ∃ r, (createRoom s creatorId rd now suffix).1 = some r ∧
      r.name = rd.name ∧ r.ownerId = creatorId ∧
      r.memberIds = [creatorId] ∧ r.moderatorIds = [creatorId] ∧
      r.roomId = rd.roomType ++ ":" ++ toString now ++ "_" ++ suffix :=
  ⟨_, rfl, rfl, rfl, rfl, rfl, rfl⟩

/-- C2 counterexample: `"alice"` joins `roomPub` twice; both calls succeed
and the member set holds one entry for her, but TWO `user:joined_class`
broadcasts are emitted — the claimed "at most one broadcast" fails. -/
theorem idempotent_join_claim_cx :
    (joinRoom stJoin sockA "room1" {} 1000).1.success = true ∧
    (joinRoom stJoin1 sockA "room1" {} 2000).1.success = true ∧
    ((mGet stJoin2.rooms "room1").map (fun r => occCount r.memberIds "alice")) = some 1 ∧
    joinedEventCount stJoin2.eventLog = 2 := by
  decide

/-- C2 amended: joining twice (under conditions letting both calls pass the
access and capacity gates) keeps exactly one membership entry and one member
record for the actor, but EACH successful call broadcasts `user:joined_class`,
so the trace gains two joined broadcasts, not at most one. -/
theorem idempotent_join_amended (s : RMState) (socket : Socket) (roomId : String)
    (opts : JoinOptions) (n₁ n₂ : Nat) (room : RoomInfo)
    (h0 : mGet s.rooms roomId = some room)
    (hnm : setHas room.memberIds socket.data.userId = false)
    (hrec : mGet ((mGet s.roomMembers roomId).getD []) socket.data.userId = none)
    (hacc : (opts.validateAccess && !canUserJoinRoom socket.data.userId room) = false)
    (hcap₁ : (decide (room.maxMembers ≤ room.memberIds.length) &&
              !setHas room.moderatorIds socket.data.userId) = false)
    (hcap₂ : (decide (room.maxMembers ≤ room.memberIds.length + 1) &&
              !setHas room.moderatorIds socket.data.userId) = false) :
    (joinRoom s socket roomId opts n₁).1.success = true ∧
    (joinRoom (joinRoom s socket roomId opts n₁).2 socket roomId opts n₂).1.success = true ∧
    ((mGet (joinRoom (joinRoom s socket roomId opts n₁).2 socket roomId opts n₂).2.rooms
        roomId).map (fun r => occCount r.memberIds socket.data.userId)) = some 1 ∧
    mapKeyCount
      ((mGet (joinRoom (joinRoom s socket roomId opts n₁).2 socket roomId opts
          n₂).2.roomMembers roomId).getD []) socket.data.userId = 1 ∧
    joinedEventCount
      (joinRoom (joinRoom s socket roomId opts n₁).2 socket roomId opts n₂).2.eventLog
      = joinedEventCount s.eventLog + 2 := by
  have heq₁ := joinRoom_success_eq s socket roomId opts n₁ room h0 hacc hcap₁
  have hmem₂ : setHas (joinUpdatedRoom room socket.data.userId n₁).memberIds
      socket.data.userId = true := by
    rw [joinUpdatedRoom_memberIds]
    exact setHas_setAdd_self _ _
  have hacc₂ : (opts.validateAccess &&
      !canUserJoinRoom socket.data.userId (joinUpdatedRoom room socket.data.userId n₁)) = false := by
    rw [canUserJoinRoom_of_member _ _ hmem₂]
    simp
  have hlen₂ : (joinUpdatedRoom room socket.data.userId n₁).memberIds.length
      = room.memberIds.length + 1 := by
    rw [joinUpdatedRoom_memberIds]
    exact setAdd_length_of_not_has _ _ hnm
  have hcap₂' : (decide ((joinUpdatedRoom room socket.data.userId n₁).maxMembers ≤
      (joinUpdatedRoom room socket.data.userId n₁).memberIds.length) &&
      !setHas (joinUpdatedRoom room socket.data.userId n₁).moderatorIds
        socket.data.userId) = false := by
    rw [joinUpdatedRoom_maxMembers, joinUpdatedRoom_moderatorIds, hlen₂]
    exact hcap₂
  have h0₂ : mGet (joinRoom s socket roomId opts n₁).2.rooms roomId
      = some (joinUpdatedRoom room socket.data.userId n₁) := by
    rw [heq₁]
    exact mGet_mSet_self _ _ _
  have heq₂ := joinRoom_success_eq (joinRoom s socket roomId opts n₁).2 socket roomId opts n₂
      (joinUpdatedRoom room socket.data.userId n₁) h0₂ hacc₂ hcap₂'
  have hdup : setAdd (setAdd room.memberIds socket.data.userId) socket.data.userId
      = setAdd room.memberIds socket.data.userId :=
    setAdd_of_has _ _ (setHas_setAdd_self _ _)
  have hocc : occCount (setAdd room.memberIds socket.data.userId) socket.data.userId = 1 :=
    occCount_setAdd_of_not_has _ _ hnm
  refine ⟨by rw [heq₁], by rw [heq₂], ?_, ?_, ?_⟩
  · rw [heq₂]
    dsimp only
    rw [mGet_mSet_self]
    simp [joinUpdatedRoom_memberIds, hdup, hocc]
  · rw [heq₂]
    dsimp only
    rw [mGet_mSet_self]
    simp only [Option.getD_some]
    rw [heq₁]
    dsimp only
    rw [mGet_mSet_self]
    simp only [Option.getD_some]
    rw [mapKeyCount_mSet_of_some _ _ _ _ (mGet_mSet_self _ _ _),
        mapKeyCount_mSet_of_none _ _ _ hrec,
        mapKeyCount_eq_zero_of_none _ _ hrec]
  · rw [heq₂]
    dsimp only
    rw [heq₁]
    dsimp only
    simp [joinedEventCount, List.filter_append]

/-- C2 amended, witnessed on the concrete double join of `"alice"`. -/
theorem idempotent_join_amended_witness :
    (joinRoom stJoin sockA "room1" {} 1000).1.success = true ∧
    (joinRoom (joinRoom stJoin sockA "room1" {} 1000).2 sockA "room1" {} 2000).1.success = true ∧
    ((mGet (joinRoom (joinRoom stJoin sockA "room1" {} 1000).2 sockA "room1" {}
        2000).2.rooms "room1").map (fun r => occCount r.memberIds "alice")) = some 1 ∧
    mapKeyCount
      ((mGet (joinRoom (joinRoom stJoin sockA "room1" {} 1000).2 sockA "room1" {}
          2000).2.roomMembers "room1").getD []) "alice" = 1 ∧
    joinedEventCount
      (joinRoom (joinRoom stJoin sockA "room1" {} 1000).2 sockA "room1" {} 2000).2.eventLog
      = joinedEventCount stJoin.eventLog + 2 :=
  idempotent_join_amended stJoin sockA "room1" {} 1000 2000 roomPub
    (by decide) (by decide) (by decide) (by decide) (by decide) (by decide)

/-! ### Lemmas about the moderation store -/

theorem recordModerationAction_mutedUsers (s : PermState) (a : ModerationAction) :
    (recordModerationAction s a).mutedUsers = s.mutedUsers := rfl

theorem setUserMuted_mutedUsers (s : PermState) (roomId u : String) (e : Nat) :
    (setUserMuted s roomId u e).mutedUsers
      = mSet s.mutedUsers roomId (mSet ((mGet s.mutedUsers roomId).getD []) u e) := rfl

theorem addUserWarning_mutedUsers (s : PermState) (roomId u : String) :
    (addUserWarning s roomId u).mutedUsers = s.mutedUsers := rfl

theorem getUserWarnings_recordModerationAction (s : PermState) (a : ModerationAction)
    (roomId u : String) :
    getUserWarnings (recordModerationAction s a) roomId u = getUserWarnings s roomId u := rfl

theorem getUserWarnings_setUserMuted (s : PermState) (roomId₁ u₁ : String) (e : Nat)
    (roomId u : String) :
    getUserWarnings (setUserMuted s roomId₁ u₁ e) roomId u = getUserWarnings s roomId u := rfl

theorem getUserWarnings_addUserWarning (s : PermState) (roomId u : String) :
    getUserWarnings (addUserWarning s roomId u) roomId u
      = getUserWarnings s roomId u + 1 := by
  cases h : mGet s.userWarnings roomId <;>
    simp [getUserWarnings, addUserWarning, h, mGet_mSet_self, mGet]

theorem isUserBanned_mutedUsers (s : PermState) (roomId u : String) (now : Nat) :
    (isUserBanned s roomId u now).2.mutedUsers = s.mutedUsers := by
  unfold isUserBanned
  split
  · rfl
  · split
    · rfl
    · split <;> rfl

theorem applyModerationAction_warn_lt (s : PermState) (rooms : List (String × RoomInfo))
    (modId roomId target : String) (r : Option String) (d : Option Nat) (t : Nat)
    (room : RoomInfo) (h0 : mGet rooms roomId = some room)
    (hlt : getUserWarnings (addUserWarning s roomId target) roomId target < 3) :
    applyModerationAction s rooms modId "warn" roomId target r d t
      = (⟨true, "User warned ("
            ++ toString (getUserWarnings (addUserWarning s roomId target) roomId target)
            ++ " warnings)"⟩,
         recordModerationAction (addUserWarning s roomId target)
           ⟨"warn", roomId, target, modId, r, d, t⟩) := by
  have h3 : ¬ (3 ≤ getUserWarnings (addUserWarning s roomId target) roomId target) := by
    omega
  simp [applyModerationAction, h0, h3]

theorem applyModerationAction_warn_ge (s : PermState) (rooms : List (String × RoomInfo))
    (modId roomId target : String) (r : Option String) (d : Option Nat) (t : Nat)
    (room : RoomInfo) (h0 : mGet rooms roomId = some room)
    (hge : 3 ≤ getUserWarnings (addUserWarning s roomId target) roomId target) :
    applyModerationAction s rooms modId "warn" roomId target r d t
      = (⟨true, "User warned ("
            ++ toString (getUserWarnings (addUserWarning s roomId target) roomId target)
            ++ " warnings)" ++ " - Auto-muted for repeated warnings"⟩,
         recordModerationAction
           (setUserMuted (addUserWarning s roomId target) roomId target (t + 600000))
           ⟨"warn", roomId, target, modId, r, d, t⟩) := by
  simp [applyModerationAction, h0, hge]

theorem applyModerationAction_mute_eq (s : PermState) (rooms : List (String × RoomInfo))
    (modId roomId target : String) (r : Option String) (d t : Nat)
    (room : RoomInfo) (h0 : mGet rooms roomId = some room) :
    applyModerationAction s rooms modId "mute" roomId target r (some d) t
      = (⟨true, "User muted until " ++ toString (t + d * 60000)⟩,
         recordModerationAction (setUserMuted s roomId target (t + d * 60000))
           ⟨"mute", roomId, target, modId, r, some d, t⟩) := by
  simp [applyModerationAction, h0]

/-- C6 confirmed: three `warn` actions against the same target in the same
room — whatever the times between them — leave the target with 3 warnings,
auto-muted for 10 minutes from the third warn, and the third outcome message
reports the escalation. -/
theorem warning_escalation (pm : PermState) (rooms : List (String × RoomInfo))
    (roomId target modId : String) (r₁ r₂ r₃ : Option String) (d₁ d₂ d₃ : Option Nat)
    (t₁ t₂ t₃ : Nat) (room : RoomInfo)
    (h0 : mGet rooms roomId = some room)
    (hw : getUserWarnings pm roomId target = 0) :
    (applyModerationAction
      (applyModerationAction
        (applyModerationAction pm rooms modId "warn" roomId target r₁ d₁ t₁).2
        rooms modId "warn" roomId target r₂ d₂ t₂).2
      rooms modId "warn" roomId target r₃ d₃ t₃).1.success = true ∧
    (applyModerationAction
      (applyModerationAction
        (applyModerationAction pm rooms modId "warn" roomId target r₁ d₁ t₁).2
        rooms modId "warn" roomId target r₂ d₂ t₂).2
      rooms modId "warn" roomId target r₃ d₃ t₃).1.message
      = "User warned (3 warnings) - Auto-muted for repeated warnings" ∧
    getUserWarnings (applyModerationAction
      (applyModerationAction
        (applyModerationAction pm rooms modId "warn" roomId target r₁ d₁ t₁).2
        rooms modId "warn" roomId target r₂ d₂ t₂).2
      rooms modId "warn" roomId target r₃ d₃ t₃).2 roomId target = 3 ∧
    (isUserMuted (applyModerationAction
      (applyModerationAction
        (applyModerationAction pm rooms modId "warn" roomId target r₁ d₁ t₁).2
        rooms modId "warn" roomId target r₂ d₂ t₂).2
      rooms modId "warn" roomId target r₃ d₃ t₃).2 roomId target t₃).1 = true ∧
    ((mGet (applyModerationAction
      (applyModerationAction
        (applyModerationAction pm rooms modId "warn" roomId target r₁ d₁ t₁).2
        rooms modId "warn" roomId target r₂ d₂ t₂).2
      rooms modId "warn" roomId target r₃ d₃ t₃).2.mutedUsers roomId).bind
        (fun rm => mGet rm target)) = some (t₃ + 10 * 60000) := by
  have hw₁ : getUserWarnings (addUserWarning pm roomId target) roomId target = 1 := by
    rw [getUserWarnings_addUserWarning, hw]
  have e₁ := applyModerationAction_warn_lt pm rooms modId roomId target r₁ d₁ t₁ room h0
    (by omega)
  have hs₁ : getUserWarnings (applyModerationAction pm rooms modId "warn" roomId target
      r₁ d₁ t₁).2 roomId target = 1 := by
    rw [e₁]
    dsimp only
    rw [getUserWarnings_recordModerationAction]
    exact hw₁
  have hw₂ : getUserWarnings (addUserWarning (applyModerationAction pm rooms modId "warn"
      roomId target r₁ d₁ t₁).2 roomId target) roomId target = 2 := by
    rw [getUserWarnings_addUserWarning, hs₁]
  have e₂ := applyModerationAction_warn_lt
    (applyModerationAction pm rooms modId "warn" roomId target r₁ d₁ t₁).2
    rooms modId roomId target r₂ d₂ t₂ room h0 (by omega)
  have hs₂ : getUserWarnings (applyModerationAction (applyModerationAction pm rooms modId
      "warn" roomId target r₁ d₁ t₁).2 rooms modId "warn" roomId target r₂ d₂ t₂).2
      roomId target = 2 := by
    rw [e₂]
    dsimp only
    rw [getUserWarnings_recordModerationAction]
    exact hw₂
  have hw₃ : getUserWarnings (addUserWarning (applyModerationAction (applyModerationAction
      pm rooms modId "warn" roomId target r₁ d₁ t₁).2 rooms modId "warn" roomId target
      r₂ d₂ t₂).2 roomId target) roomId target = 3 := by
    rw [getUserWarnings_addUserWarning, hs₂]
  have e₃ := applyModerationAction_warn_ge
    (applyModerationAction (applyModerationAction pm rooms modId "warn" roomId target
      r₁ d₁ t₁).2 rooms modId "warn" roomId target r₂ d₂ t₂).2
    rooms modId roomId target r₃ d₃ t₃ room h0 (by omega)
  refine ⟨by rw [e₃], ?_, ?_, ?_, ?_⟩
  · rw [e₃, hw₃]
    dsimp only
    decide
  · rw [e₃]
    dsimp only
    rw [getUserWarnings_recordModerationAction, getUserWarnings_setUserMuted]
    exact hw₃
  · rw [e₃]
    dsimp only
    simp only [isUserMuted, recordModerationAction_mutedUsers, setUserMuted_mutedUsers,
      mGet_mSet_self, Option.getD_some]
    have hnl : ¬ (t₃ + 600000 < t₃) := by omega
    simp [hnl]
  · rw [e₃]
    dsimp only
    simp only [recordModerationAction_mutedUsers, setUserMuted_mutedUsers,
      mGet_mSet_self, Option.some_bind]

/-- C6 witnessed: three concrete warns against `"bob"` in `room1`. -/
theorem warning_escalation_witness :
    (applyModerationAction
      (applyModerationAction
        (applyModerationAction PermState.empty roomsList1 "owner" "warn" "room1" "bob"
          none none 10).2
        roomsList1 "owner" "warn" "room1" "bob" none none 5000).2
      roomsList1 "owner" "warn" "room1" "bob" none none 900000).1.message
      = "User warned (3 warnings) - Auto-muted for repeated warnings" ∧
    (isUserMuted (applyModerationAction
      (applyModerationAction
        (applyModerationAction PermState.empty roomsList1 "owner" "warn" "room1" "bob"
          none none 10).2
        roomsList1 "owner" "warn" "room1" "bob" none none 5000).2
      roomsList1 "owner" "warn" "room1" "bob" none none 900000).2 "room1" "bob"
      900000).1 = true := by
  have h := warning_escalation PermState.empty roomsList1 "room1" "bob" "owner"
    none none none none none none 10 5000 900000 roomPub (by decide) (by decide)
  exact ⟨h.2.1, h.2.2.2.1⟩

/-- C7 confirmed: after a 1-minute mute set at `t₀`, any
`getUserModerationStatus` query at a time strictly past `t₀ + 60000`
reports `isMuted = false` and purges the expired entry from the mute map —
no background sweep involved. -/
theorem lazy_mute_expiry (pm : PermState) (rooms : List (String × RoomInfo))
    (roomId target modId : String) (reason : Option String) (t₀ t : Nat) (room : RoomInfo)
    (h0 : mGet rooms roomId = some room)
    (ht : t₀ + 60000 < t) :
    (applyModerationAction pm rooms modId "mute" roomId target reason (some 1) t₀).1.success
      = true ∧
    (getUserModerationStatus
      (applyModerationAction pm rooms modId "mute" roomId target reason (some 1) t₀).2
      roomId target t).1.isMuted = false ∧
    ((mGet (getUserModerationStatus
      (applyModerationAction pm rooms modId "mute" roomId target reason (some 1) t₀).2
      roomId target t).2.mutedUsers roomId).bind (fun rm => mGet rm target)) = none := by
  have e := applyModerationAction_mute_eq pm rooms modId roomId target reason 1 t₀ room h0
  have hlt : t₀ + 1 * 60000 < t := by omega
  have hmut : (isUserMuted
      (applyModerationAction pm rooms modId "mute" roomId target reason (some 1) t₀).2
      roomId target t)
      = (false,
         { (applyModerationAction pm rooms modId "mute" roomId target reason
             (some 1) t₀).2 with
           mutedUsers := mSet (applyModerationAction pm rooms modId "mute" roomId target
               reason (some 1) t₀).2.mutedUsers roomId
             (mDel (mSet ((mGet pm.mutedUsers roomId).getD []) target (t₀ + 1 * 60000))
               target) }) := by
    rw [e]
    dsimp only
    simp only [isUserMuted, recordModerationAction_mutedUsers, setUserMuted_mutedUsers,
      mGet_mSet_self, Option.getD_some]
    simp [hlt, e]
  refine ⟨by rw [e], ?_, ?_⟩
  · simp only [getUserModerationStatus, hmut]
  · simp only [getUserModerationStatus, hmut]
    rw [isUserBanned_mutedUsers]
    simp only [mGet_mSet_self, Option.some_bind]
    rw [mGet_mDel_self]

/-- C7 witnessed: `"bob"` muted for 1 minute at time 1000 is no longer muted
when queried at time 70000, and the entry is gone from the mute map. -/
theorem lazy_mute_expiry_witness :
    (getUserModerationStatus
      (applyModerationAction PermState.empty roomsList1 "owner" "mute" "room1" "bob"
        none (some 1) 1000).2 "room1" "bob" 70000).1.isMuted = false ∧
    ((mGet (getUserModerationStatus
      (applyModerationAction PermState.empty roomsList1 "owner" "mute" "room1" "bob"
        none (some 1) 1000).2 "room1" "bob" 70000).2.mutedUsers "room1").bind
      (fun rm => mGet rm "bob")) = none := by
  have h := lazy_mute_expiry PermState.empty roomsList1 "room1" "bob" "owner" none
    1000 70000 roomPub (by decide) (by decide)
  exact ⟨h.2.1, h.2.2⟩

theorem engagementStep_total (e : UserEngagement) (a : UserActivity) :
    (engagementStep e a).total = e.total +
      (if (decide (1 ≤ a.messagesCount) || a.isCurrentlyActive) = true then 1 else 0) := by
  unfold engagementStep UserEngagement.total
  by_cases h₁ : 10 < a.messagesCount
  · have h₄ : (1 : Nat) ≤ a.messagesCount := by omega
    simp [h₁, h₄]
    omega
  · by_cases h₂ : 3 ≤ a.messagesCount
    · have h₄ : (1 : Nat) ≤ a.messagesCount := by omega
      simp [h₁, h₂, h₄]
      omega
    · by_cases h₃ : 1 ≤ a.messagesCount
      · simp [h₁, h₂, h₃]
        omega
      · cases hac : a.isCurrentlyActive <;> simp [h₁, h₂, h₃, hac]
        omega

theorem engagement_total_foldl (acts : List UserActivity) (e : UserEngagement) :
    (acts.foldl engagementStep e).total
      = e.total + (acts.filter
          (fun x => decide (1 ≤ x.messagesCount) || x.isCurrentlyActive)).length := by
  induction acts generalizing e with
  | nil => simp
  | cons a rest ih =>
    rw [List.foldl_cons, ih, engagementStep_total, List.filter_cons]
    by_cases hp : (decide (1 ≤ a.messagesCount) || a.isCurrentlyActive) = true
    · simp [hp]
      omega
    · simp at hp
      simp [hp]

/-- C9 counterexample: `"u1"` joined and left `room1` without a message, so
they are tracked (count 1) but the snapshot's four engagement tiers sum to
0 — the tier counts do NOT sum to the tracked-actor total. -/
theorem engagement_sum_claim_cx :
    trackedActorCount stAnalytics "room1" = 1 ∧
    ((generateRoomMetrics stAnalytics stJoin "room1" 3000).1.map
      (fun m => m.userEngagement.total)) = some 0 := by
  decide

/-- C9 amended: the fixed thresholds are as claimed (`>10` very-active,
`3–10` active, `1–2` passive, `0` + present lurker), and the snapshot's
`userEngagement` is exactly this partition of the tracked activities — but
the four tier counts sum to the number of tracked actors who sent at least
one message or are currently present; a tracked actor with 0 messages who is
no longer active (for example one who left) falls into no tier, so the sum
can be strictly less than the tracked-actor total. -/
theorem engagement_tiers_amended (acts : List UserActivity) (a : UserActivity) :
    ((calculateUserEngagement acts).total
      = (acts.filter
          (fun x => decide (1 ≤ x.messagesCount) || x.isCurrentlyActive)).length) ∧
    (∀ (st : AnalyticsState) (rm : RMState) (roomId : String) (now : Nat) (m : RoomMetrics),
      (generateRoomMetrics st rm roomId now).1 = some m →
      m.userEngagement = calculateUserEngagement
        (((mGet st.userActivities roomId).getD []).map (fun p => p.2))) ∧
    (10 < a.messagesCount → calculateUserEngagement [a] = ⟨1, 0, 0, 0⟩) ∧
    (3 ≤ a.messagesCount → a.messagesCount ≤ 10 →
      calculateUserEngagement [a] = ⟨0, 1, 0, 0⟩) ∧
    (1 ≤ a.messagesCount → a.messagesCount ≤ 2 →
      calculateUserEngagement [a] = ⟨0, 0, 1, 0⟩) ∧
    (a.messagesCount = 0 → a.isCurrentlyActive = true →
      calculateUserEngagement [a] = ⟨0, 0, 0, 1⟩) ∧
    (a.messagesCount = 0 → a.isCurrentlyActive = false →
      calculateUserEngagement [a] = ⟨0, 0, 0, 0⟩) := by
  refine ⟨?_, ?_, ?_, ?_, ?_, ?_, ?_⟩
  · rw [calculateUserEngagement, engagement_total_foldl]
    simp [UserEngagement.total]
  · intro st rm roomId now m hm
    unfold generateRoomMetrics at hm
    cases hlk : getRoomInfo rm roomId with
    | none =>
      rw [hlk] at hm
      simp at hm
    | some room =>
      rw [hlk] at hm
      simp only [Option.some.injEq] at hm
      subst hm
      rfl
  · intro h₁
    simp [calculateUserEngagement, engagementStep, h₁]
  · intro h₂ hb
    have h₁ : ¬ (10 < a.messagesCount) := by omega
    simp [calculateUserEngagement, engagementStep, h₁, h₂]
  · intro h₃ hb
    have h₁ : ¬ (10 < a.messagesCount) := by omega
    have h₂ : ¬ (3 ≤ a.messagesCount) := by omega
    simp [calculateUserEngagement, engagementStep, h₁, h₂, h₃]
  · intro hz hac
    have h₁ : ¬ (10 < a.messagesCount) := by omega
    have h₂ : ¬ (3 ≤ a.messagesCount) := by omega
    have h₃ : ¬ (1 ≤ a.messagesCount) := by omega
    simp [calculateUserEngagement, engagementStep, h₁, h₂, h₃, hac]
  · intro hz hac
    have h₁ : ¬ (10 < a.messagesCount) := by omega
    have h₂ : ¬ (3 ≤ a.messagesCount) := by omega
    have h₃ : ¬ (1 ≤ a.messagesCount) := by omega
    simp [calculateUserEngagement, engagementStep, h₁, h₂, h₃, hac]

/-- C9 amended, witnessed: an actor with 12 messages is very-active, a
present actor with 0 messages is a lurker, and over
`[actVery, actLurk, actGone]` the tier counts sum to 2, not 3. -/
theorem engagement_tiers_amended_witness :
    (calculateUserEngagement [actVery] = ⟨1, 0, 0, 0⟩) ∧
    (calculateUserEngagement [actLurk] = ⟨0, 0, 0, 1⟩) ∧
    ((calculateUserEngagement [actVery, actLurk, actGone]).total = 2) := by
  have h := engagement_tiers_amended [actVery, actLurk, actGone] actVery
  have h₂ := engagement_tiers_amended [actVery, actLurk, actGone] actLurk
  refine ⟨h.2.2.1 (by decide), h₂.2.2.2.2.2.1 (by decide) (by decide), ?_⟩
  rw [h.1]
  decide
